import Mathlib

/-!
Verification development for the web-forum operational tooling
(load-test locustfile, bottleneck simulator, performance analyzer,
alert-forwarding bot).  Each Python function relevant to the spec is
shallowly embedded as an executable Lean definition; durations are
modelled in integral units (milliseconds for sleeps/latencies, seconds
for timeouts) and the HTTP backend is abstracted as a function from
attempt index to outcome.
-/

namespace ForumTooling

/-! ## Request Executor (`ForumUser.safe_request`, locustfile.py)

One backend attempt either raises a transport-level exception
(`ConnectionError`, `Timeout`, `RequestException`) or yields an HTTP
response carrying a status code.  `safe_request` loops
`for attempt in range(max_retries)`: on a response it returns it
immediately; on an exception at the last attempt it returns `None`,
otherwise it sleeps `retry_delay * (attempt + 1)` seconds and retries.
`retry_delay = 0.5` s is modelled as 500 ms.  -/

/-- Outcome of one backend attempt: a transport-level exception, or an
HTTP response with the given status code. -/
inductive Attempt where
  | failure
  | response (status : Nat)
deriving DecidableEq, Repr

/-- What one call of `safe_request` produced: the returned response
status (`none` models the Python `return None`), the number of backend
attempts actually made, and the list of back-off sleeps (milliseconds)
performed between attempts, in order. -/
structure ExecResult where
  result : Option Nat
  attempts : Nat
  sleeps : List Nat
deriving DecidableEq, Repr

/-- The retry loop of `safe_request`, starting at 0-based index
`attempt` with `fuel` iterations remaining (the loop body for
`attempt, attempt+1, ..., maxRetries-1`). -/
def safeRequestFrom (backend : Nat → Attempt) (maxRetries : Nat) :
    Nat → Nat → ExecResult
  | _, 0 => ⟨none, 0, []⟩
  | attempt, fuel + 1 =>
    if attempt < maxRetries then
      match backend attempt with
      | .response s => ⟨some s, 1, []⟩
      | .failure =>
        if attempt = maxRetries - 1 then
          ⟨none, 1, []⟩
        else
          let rest := safeRequestFrom backend maxRetries (attempt + 1) fuel
          ⟨rest.result, rest.attempts + 1, 500 * (attempt + 1) :: rest.sleeps⟩
    else ⟨none, 0, []⟩

/-- The full `ForumUser.safe_request`: `max_retries = 3`, `retry_delay = 0.5` s. -/
def safe_request (backend : Nat → Attempt) : ExecResult :=
  safeRequestFrom backend 3 0 3

end ForumTooling

namespace ForumTooling

/-- C2.  Whenever some attempt `i` of the backend yields an HTTP
response (every earlier attempt having failed at transport level),
`safe_request` returns exactly the status of that response — whatever it is,
4xx/5xx included — after exactly `i + 1` attempts, with no retry made
for the returned response. -/
theorem safe_request_returns_first_response
    (backend : Nat → Attempt) (i : Nat) (s : Nat)
    (hi : i < 3)
    (hfail : ∀ j, j < i → backend j = .failure)
    (hresp : backend i = .response s) :
    (safe_request backend).result = some s ∧
      (safe_request backend).attempts = i + 1 := by
  interval_cases i
  · simp [safe_request, safeRequestFrom, hresp]
  · have h0 := hfail 0 (by norm_num)
    simp [safe_request, safeRequestFrom, h0, hresp]
  · have h0 := hfail 0 (by norm_num)
    have h1 := hfail 1 (by norm_num)
    simp [safe_request, safeRequestFrom, h0, h1, hresp]

/-- Witness for C2: a backend whose first attempt fails and whose
second returns HTTP 500; the 500 response is returned after 2
attempts. -/
theorem safe_request_returns_first_response_witness :
    (safe_request (fun j => if j = 1 then .response 500 else .failure)).result
        = some 500 ∧
      (safe_request (fun j => if j = 1 then .response 500 else .failure)).attempts
        = 2 :=
  safe_request_returns_first_response
    (fun j => if j = 1 then .response 500 else .failure) 1 500
    (by norm_num) (by intro j hj; interval_cases j; rfl) rfl

/-- C3.  Against a backend whose every attempt raises a transport-level
failure, `safe_request` makes exactly 3 attempts (sleeping 500 ms and
1000 ms between them) and then returns `None` — a value, not an
exception, so nothing propagates past the caller boundary. -/
theorem safe_request_all_failures
    (backend : Nat → Attempt)
    (hfail : ∀ j, backend j = .failure) :
    safe_request backend = ⟨none, 3, [500, 1000]⟩ := by
  simp [safe_request, safeRequestFrom, hfail 0, hfail 1, hfail 2]

/-- Witness for C3 at the constantly-failing backend. -/
theorem safe_request_all_failures_witness :
    safe_request (fun _ => .failure) = ⟨none, 3, [500, 1000]⟩ :=
  safe_request_all_failures (fun _ => .failure) (fun _ => rfl)

/-- C4.  Against a backend failing transport on attempts 0 and 1 and
responding on attempt 2, `safe_request` returns the success outcome
after exactly 3 attempts, having slept `retry_delay * 1 = 500` ms after
the first failure and `retry_delay * 2 = 1000` ms after the second. -/
theorem safe_request_two_failures_then_success
    (backend : Nat → Attempt) (s : Nat)
    (h0 : backend 0 = .failure)
    (h1 : backend 1 = .failure)
    (h2 : backend 2 = .response s) :
    safe_request backend = ⟨some s, 3, [500, 1000]⟩ := by
  simp [safe_request, safeRequestFrom, h0, h1, h2]

/-- Witness for C4: fails twice then returns HTTP 200. -/
theorem safe_request_two_failures_then_success_witness :
    safe_request (fun j => if j = 2 then .response 200 else .failure)
      = ⟨some 200, 3, [500, 1000]⟩ :=
  safe_request_two_failures_then_success
    (fun j => if j = 2 then .response 200 else .failure) 200 rfl rfl rfl

/-! ## Identifier Cache (`board_ids` / `post_ids`, locustfile.py)

`on_start` sets `self.max_stored_ids = 100`.  Two distinct recording
paths mutate a per-kind id list:

* after a successful create (`create_board` / `create_post`):
  `ids.append(new_id)`, then
  `if len(ids) > self.max_stored_ids: ids = ids[-self.max_stored_ids:]`;
* after a successful paginated list
  (`get_boards_with_pagination` / `get_posts_by_board_with_pagination`):
  `ids.extend([x["id"] for x in data])` — with no trimming step.

Reading (`get_posts_by_board`, `get_post`, `create_post`, ...) is
`if not ids: return` followed by `ids[0]`.  -/

/-- The `max_stored_ids` bound set in `on_start`. -/
def max_stored_ids : Nat := 100

/-- The create-path record: append one id, then keep only the last
`max_stored_ids` entries when the bound is exceeded
(Python `ids[-self.max_stored_ids:]`). -/
def recordCreate (ids : List Nat) (id : Nat) : List Nat :=
  let ids := ids ++ [id]
  if ids.length > max_stored_ids then ids.drop (ids.length - max_stored_ids)
  else ids

/-- The paginated-list record: `self.board_ids.extend([...])`, with no
trimming. -/
def recordList (ids : List Nat) (newIds : List Nat) : List Nat :=
  ids ++ newIds

/-- The reading pattern `if not ids: return` / `ids[0]` (spec `sample`) —
first element, or "not available" on an empty list. -/
def sample (ids : List Nat) : Option Nat :=
  if ids.isEmpty then none else some (ids.headD 0)

/-- Cache state after `n` successful creates of ids `0, 1, ..., n-1`
starting from the empty cache of `on_start`. -/
def afterCreates (n : Nat) : List Nat :=
  (List.range n).foldl recordCreate []

set_option maxRecDepth 10000

/-- C1 (failing-input evaluation).  The bound of the claim fails on the
list-response path: starting from the empty cache, 100 successful
creates fill the cache to exactly `max_stored_ids = 100`, and then a
single successful paginated list response carrying one id leaves 101
stored ids — the `extend` path never trims, so the stored length
exceeds `max_stored_ids`. -/
theorem cache_bound_violated_by_list_path :
    (afterCreates 100).length = max_stored_ids ∧
      (recordList (afterCreates 100) [7]).length = 101 ∧
      101 > max_stored_ids := by
  refine ⟨?_, ?_, by decide⟩ <;> decide

/-- C9.  `sample` on the empty cache signals "not available" (the
dependent task issues no request); after a single create-record of `x`
into the empty cache it returns `x`; and on any non-empty cache it
returns the first (oldest surviving) element. -/
theorem sample_first_element :
    sample [] = none ∧
      (∀ x : Nat, sample (recordCreate [] x) = some x) ∧
      (∀ ids : List Nat, ids ≠ [] → sample ids = some (ids.headD 0)) := by
  refine ⟨rfl, fun x => ?_, fun ids h => ?_⟩
  · simp [recordCreate, sample, max_stored_ids]
  · simp [sample, List.isEmpty_iff, h]

/-- Witness for C9 at the concrete cache `[5, 9]`. -/
theorem sample_first_element_witness :
    sample [] = none ∧ sample (recordCreate [] 3) = some 3 ∧
      sample [5, 9] = some 5 :=
  ⟨sample_first_element.1, sample_first_element.2.1 3,
    sample_first_element.2.2 [5, 9] (by decide)⟩

/-! ## Load Driver (`BottleneckSimulator.simulate_load`, simulate_bottleneck.py)

The driver opens `ThreadPoolExecutor(max_workers=min(50,
requests_per_second))` and loops once per second while wall time is
below `end_time`: it submits `requests_per_second` futures (each
submission re-checks the stop flag and the deadline), waits on every
future of the batch, and sleeps the remainder of the second.  We model
wall time discretely — the loop body is instantaneous and each
iteration then occupies exactly one one-second tick (the pacing sleep
pads it out), so the mid-batch deadline check never fires inside a
tick and the loop runs `duration_seconds` iterations. -/

/-- The `max_workers` argument of the pool of the driver. -/
def pool_max_workers (rps : Nat) : Nat := min 50 rps

/-- The per-tick batch sizes submitted by `simulate_load` over a run of
the given whole duration, under the discrete-time model above: one
entry per loop iteration, each the count of futures submitted in that
iteration. -/
def simulate_load_batches (rps : Nat) : Nat → List Nat
  | 0 => []
  | d + 1 => rps :: simulate_load_batches rps d

/-- How many tasks of one batch the bounded pool has concurrently in
flight: never more than `max_workers`, never more than the batch
itself (the driver drains each batch before submitting the next, so no
two batches overlap). -/
def inFlight (rps batch : Nat) : Nat := min (pool_max_workers rps) batch

/-- C5.  Over a `simulate_load` run: the pool is created with exactly
`min 50 rps` workers; every tick submits at most `rps` units of work
(under ideal pacing, exactly `rps`); the run total is
`rps * duration_seconds`; and the in-flight count during the batch of any tick never exceeds `min 50 rps`. -/
theorem simulate_load_rate_and_concurrency (rps d : Nat) :
    pool_max_workers rps = min 50 rps ∧
      ((simulate_load_batches rps d).all fun b => b ≤ rps) = true ∧
      (simulate_load_batches rps d).sum = rps * d ∧
      ((simulate_load_batches rps d).all
        fun b => inFlight rps b ≤ min 50 rps) = true := by
  refine ⟨rfl, ?_, ?_, ?_⟩
  · induction d with
    | zero => rfl
    | succ n ih => simp [simulate_load_batches, ih]
  · induction d with
    | zero => simp [simulate_load_batches]
    | succ n ih => simp [simulate_load_batches, ih, Nat.mul_succ]; ring
  · induction d with
    | zero => rfl
    | succ n ih =>
      simp [simulate_load_batches, inFlight, pool_max_workers,
        Nat.min_le_left, ih]

/-! ## Latency statistics (`PerformanceAnalyzer.run_test`,
performance_analyzer.py)

When the collected `response_times` list is non-empty, `run_test`
reports `p95_time = sorted(response_times)[int(len(response_times) *
0.95)]`; on an empty sample it returns `None`.  `int(n * 0.95)`
truncates towards zero; for the sample sizes representable here the
float product rounds to the exact value, so the index is
`⌊95 * n / 100⌋` in exact arithmetic.  Latencies are in
milliseconds. -/

/-- Insert into an ascending-sorted list, keeping it sorted. -/
def insertSorted (x : Nat) : List Nat → List Nat
  | [] => [x]
  | y :: ys => if x ≤ y then x :: y :: ys else y :: insertSorted x ys

/-- Ascending sort (Python `sorted`). -/
def sortAsc (l : List Nat) : List Nat := l.foldr insertSorted []

/-- The p95 rank `int(len(response_times) * 0.95)`. -/
def p95_index (n : Nat) : Nat := 95 * n / 100

/-- The `p95_time` field computed by `run_test`: `None` when no
response times were collected, otherwise the element of the sorted sample
at `p95_index`. -/
def run_test_p95 (response_times : List Nat) : Option Nat :=
  if response_times.isEmpty then none
  else some ((sortAsc response_times).getD (p95_index response_times.length) 0)

theorem insertSorted_length (x : Nat) (l : List Nat) :
    (insertSorted x l).length = l.length + 1 := by
  induction l with
  | nil => rfl
  | cons y ys ih =>
    by_cases h : x ≤ y <;> simp [insertSorted, h, ih]

theorem sortAsc_length (l : List Nat) : (sortAsc l).length = l.length := by
  induction l with
  | nil => rfl
  | cons y ys ih => simp [sortAsc, insertSorted_length] at ih ⊢; omega

theorem p95_index_lt (n : Nat) (h : 0 < n) : p95_index n < n := by
  have h100 : (0 : Nat) < 100 := by norm_num
  exact (Nat.div_lt_iff_lt_mul h100).mpr (by omega)

/-- C6.  For every non-empty latency sample the reported p95 is the
element of the ascending-sorted sample at index `⌊0.95 · n⌋`
(nearest-rank); in particular for the 10 latencies
`[10, 20, ..., 100]` the index is 9 and the reported p95 is 100. -/
theorem run_test_p95_nearest_rank (l : List Nat) (h : l ≠ []) :
    (∃ hlt : p95_index l.length < (sortAsc l).length,
        run_test_p95 l = some ((sortAsc l).get ⟨p95_index l.length, hlt⟩)) ∧
      p95_index 10 = 9 ∧
      run_test_p95 [10, 20, 30, 40, 50, 60, 70, 80, 90, 100] = some 100 := by
  have hn : 0 < l.length := List.length_pos.mpr h
  have hlt : p95_index l.length < (sortAsc l).length := by
    rw [sortAsc_length]; exact p95_index_lt _ hn
  refine ⟨⟨hlt, ?_⟩, by decide, by decide⟩
  rw [run_test_p95, if_neg (by simpa [List.isEmpty_iff] using h),
    List.getD_eq_getElem _ _ hlt]
  simp [List.get_eq_getElem]

/-- Witness for C6 at the ten-element sample of the spec. -/
theorem run_test_p95_nearest_rank_witness :
    run_test_p95 [10, 20, 30, 40, 50, 60, 70, 80, 90, 100] = some 100 :=
  (run_test_p95_nearest_rank [10, 20, 30, 40, 50, 60, 70, 80, 90, 100]
    (by decide)).2.2

/-! ## Error accounting (`BottleneckSimulator.send_request` /
`simulate_load`, simulate_bottleneck.py)

`send_request` wraps one `requests` call: on a response it returns
`{"status": response.status_code, "duration": ...}`; on a
`RequestException` (connection refused, timeout, ...) it prints the
error and returns the sentinel `{"status": 0, "duration": 0}`.  The
result-processing loop of `simulate_load` then increments
`request_count` for every completed future, and `error_count` when
`result["status"] >= 400`. -/

/-- What the underlying HTTP library did for one simulator request:
delivered a response with a status code, or raised a transport-level
`RequestException`. -/
inductive HttpOutcome where
  | response (status : Nat) (durationMs : Nat)
  | transportError
deriving DecidableEq, Repr

/-- The dict returned by `send_request` (`trace_id` omitted). -/
structure ReqSample where
  status : Nat
  duration : Nat
deriving DecidableEq, Repr

/-- The body of `BottleneckSimulator.send_request`. -/
def send_request : HttpOutcome → ReqSample
  | .response s d => ⟨s, d⟩
  | .transportError => ⟨0, 0⟩

/-- The two counters accumulated by `simulate_load`. -/
structure Counters where
  request_count : Nat
  error_count : Nat
deriving DecidableEq, Repr

/-- The result-processing loop of `simulate_load` over the completed futures
of a batch. -/
def processResults (rs : List ReqSample) : Counters :=
  rs.foldl
    (fun c r =>
      ⟨c.request_count + 1,
        if r.status ≥ 400 then c.error_count + 1 else c.error_count⟩)
    ⟨0, 0⟩

/-- Does this outcome carry an HTTP error status (≥ 400)? -/
def isHttpError : HttpOutcome → Bool
  | .response s _ => 400 ≤ s
  | .transportError => false

theorem processResults_foldl (rs : List ReqSample) (c : Counters) :
    rs.foldl
        (fun c r =>
          ⟨c.request_count + 1,
            if r.status ≥ 400 then c.error_count + 1 else c.error_count⟩)
        c
      = ⟨c.request_count + (processResults rs).request_count,
          c.error_count + (processResults rs).error_count⟩ := by
  induction rs generalizing c with
  | nil => simp [processResults]
  | cons r rs ih =>
    simp only [List.foldl_cons, processResults] at ih ⊢
    rw [ih, ih ⟨0 + 1, _⟩]
    by_cases h : r.status ≥ 400 <;> simp [h] <;> omega

theorem processResults_cons (r : ReqSample) (rs : List ReqSample) :
    processResults (r :: rs)
      = ⟨(processResults rs).request_count + 1,
          (if r.status ≥ 400 then 1 else 0)
            + (processResults rs).error_count⟩ := by
  show List.foldl _ _ (r :: rs) = _
  rw [List.foldl_cons, processResults_foldl]
  by_cases h : r.status ≥ 400 <;> simp [h] <;> omega

/-- Counterexample for the universal reading of C7: a single
transport failure passes through `send_request` as the `status = 0`
sentinel, and the counting loop, which only tests `status >= 400`,
records zero errors for it — not the one error the claim requires. -/
theorem transport_failure_not_counted :
    ¬ (processResults [send_request .transportError]).error_count = 1 := by
  decide

/-- C7 (amended).  Over any sequence of outcomes fed through
`send_request` and the counting loop: every completed unit increments
`request_count`, and `error_count` counts exactly the outcomes whose
HTTP status is ≥ 400 — transport failures map to the `status = 0`
sentinel and are never counted as errors. -/
theorem error_count_is_http_errors (outcomes : List HttpOutcome) :
    (processResults (outcomes.map send_request)).request_count
        = outcomes.length ∧
      (processResults (outcomes.map send_request)).error_count
        = (outcomes.filter isHttpError).length := by
  induction outcomes with
  | nil => exact ⟨rfl, rfl⟩
  | cons o os ih =>
    obtain ⟨ih1, ih2⟩ := ih
    rw [List.map_cons, processResults_cons]
    cases o with
    | transportError =>
      refine ⟨by simp [ih1], ?_⟩
      simp [send_request, isHttpError, List.filter, ih2]
    | response s d =>
      refine ⟨by simp [ih1], ?_⟩
      by_cases h : 400 ≤ s
      · simp [send_request, isHttpError, List.filter, h, ih2, Nat.add_comm]
      · simp [send_request, isHttpError, List.filter, h, ih2]

/-! ## Outgoing request construction and timeouts

`ForumUser.safe_request` (locustfile.py) issues every request as
`self.client.<method>(url, timeout=(self.connection_timeout,
self.network_timeout), **kwargs)` with `connection_timeout = 10.0` and
`network_timeout = 30.0` — all three method branches attach the same
(connect, read) pair.  `BottleneckSimulator.send_request`
(simulate_bottleneck.py) issues `requests.get(...)` /
`requests.post(...)` with no `timeout` argument at all, which in the
`requests` library means no client-side timeout.  Timeouts are in
whole seconds here. -/

/-- The upper-cased HTTP verb both helpers branch on
(`method.upper()` equal to `GET`, to `POST`, or anything else). -/
inductive HttpMethod where
  | get
  | post
  | other
deriving DecidableEq, Repr

/-- An outgoing HTTP request as handed to the HTTP library: method,
url, and the optional `(connect, read)` timeout pair in seconds. -/
structure OutRequest where
  method : HttpMethod
  url : String
  timeout : Option (Nat × Nat)
deriving Repr

/-- The request built by `ForumUser.safe_request` on each attempt:
every branch (`GET`, `POST`, other) passes
`timeout=(self.connection_timeout, self.network_timeout)` =
`(10.0, 30.0)`. -/
def locust_build_request (method : HttpMethod) (url : String) : OutRequest :=
  match method with
  | .get => ⟨.get, url, some (10, 30)⟩
  | .post => ⟨.post, url, some (10, 30)⟩
  | .other => ⟨.other, url, some (10, 30)⟩

/-- The request built by `BottleneckSimulator.send_request`: neither
the `requests.get` branch nor the `requests.post` branch passes a
`timeout` argument, which for the `requests` library means no
client-side timeout at all. -/
def simulator_build_request (method : HttpMethod) (endpoint : String) :
    OutRequest :=
  match method with
  | .get => ⟨.get, endpoint, none⟩
  | _ => ⟨.post, endpoint, none⟩

/-- Counterexample to C8 as stated: the GET issued by the bottleneck simulator for
`/boards` is an outgoing request of this repository carrying no
timeout pair at all, so not every outgoing request applies the
(10 s, 30 s) connect/read timeouts. -/
theorem simulator_request_has_no_timeout :
    (simulator_build_request .get ("/boards")).timeout = none := rfl

/-- C8 (amended).  Every request issued through the Locust
`safe_request` helper — whatever the method and url — carries the
explicit connect/read timeout pair (10 s, 30 s); the bottleneck
simulator `send_request`, by contrast, always sends with no
client-side timeout. -/
theorem locust_requests_always_timed_out (method : HttpMethod)
    (url : String) :
    (locust_build_request method url).timeout = some (10, 30) ∧
      (simulator_build_request method url).timeout = none := by
  cases method <;> exact ⟨rfl, rfl⟩

/-! ## Alert-forwarding bot (`alert_handler`, monitoring/telegram-bot/bot.py)

The `/alert` handler first runs `data = await request.json()` —
*outside* its `try` block, so a malformed JSON body raises out of the
handler — then, inside `try`: reads the `alerts` list (default empty when the key is missing),
returns `{"status": "ok", "message": "No alerts in the payload"}` when
that list is empty, otherwise formats and sends one Telegram message
per alert; `except Exception` turns anything raised inside the `try`
(including a failing `bot.send_message`) into a
`{"status": "error", "message": str(e)}` body.  `bot.send_message` is
modelled as a caller-supplied fallible `send`; the value of the handler is
paired with the list of messages actually handed to `send`. -/

/-- One entry of the `alerts` list of the payload, with each field as the
handler reads it (`alert.get(...)`, `labels.get(...)`,
`annotations.get(...)`): `none` models a missing key, for which the
code substitutes the documented default. -/
structure Alert where
  status : Option String
  alertname : Option String
  summary : Option String
  description : Option String
deriving Repr

/-- The parsed JSON body; `alerts = none` models a payload without an
`alerts` key (the default then yields the empty list). -/
structure AlertPayload where
  alerts : Option (List Alert)
deriving Repr

/-- What the HTTP caller of `/alert` observes: a `status: ok` body, a
`status: error` body, or an exception propagated out of the handler. -/
inductive HandlerResult where
  | ok (message : String)
  | err (message : String)
  | raised (message : String)
deriving Repr

/-- Whether an exception escaped the handler. -/
def HandlerResult.isRaised : HandlerResult → Bool
  | .raised _ => true
  | _ => false

/-- The Telegram message text assembled for one alert, with the
`get` defaults of bot.py. -/
def buildMessage (a : Alert) : String :=
  let status := a.status.getD ("unknown")
  let alert_name := a.alertname.getD ("Unknown Alert")
  let summary := a.summary.getD ("No summary provided")
  let description := a.description.getD ("No description provided")
  let emoji := if status = "firing" then "🔴" else "✅"
  let message := emoji ++ " *" ++ alert_name ++ "* - " ++ status.toUpper
    ++ "\n\n" ++ "*Summary:* " ++ summary ++ "\n"
    ++ "*Description:* " ++ description ++ "\n"
  if status = "firing" then
    message ++ "\n*Please check the system immediately!*"
  else
    message ++ "\n*Alert resolved. No further action needed.*"

/-- The `for alert in alerts: ... await bot.send_message(...)` loop:
returns the messages handed to `send` (in order) and either success or
the first exception `send` raised. -/
def sendLoop (send : String → Except String Unit) :
    List Alert → List String × Except String Unit
  | [] => ([], .ok ())
  | a :: rest =>
    let msg := buildMessage a
    match send msg with
    | .ok _ =>
      let r := sendLoop send rest
      (msg :: r.1, r.2)
    | .error e => ([msg], .error e)

/-- The `/alert` handler.  `body` is the outcome of `await request.json()`:
`Except.error` models the JSON decoder raising, which happens before
the handler `try` block and therefore propagates (`HandlerResult.raised`).
Everything after the parse follows the `try`/`except` of bot.py. -/
def alert_handler (body : Except String AlertPayload)
    (send : String → Except String Unit) :
    HandlerResult × List String :=
  match body with
  | .error e => (.raised e, [])
  | .ok data =>
    let alerts := data.alerts.getD []
    if alerts.isEmpty then (.ok ("No alerts in the payload"), [])
    else
      let r := sendLoop send alerts
      match r.2 with
      | .ok _ =>
        (.ok ("Sent " ++ toString alerts.length ++ " alerts to Telegram"),
          r.1)
      | .error e => (.err e, r.1)

/-- Counterexample to C10 as stated: a body that is not valid JSON is
decoded *before* the `try` block of the handler, so the decoder exception
propagates to the caller — the handler does not always return a
response body. -/
theorem alert_handler_raises_on_bad_json :
    (alert_handler (.error ("Expecting value: line 1 column 1 (char 0)"))
        (fun _ => .ok ())).1.isRaised = true := rfl

/-- C10 (amended).  For every *successfully parsed* JSON payload the
handler never propagates an exception: a payload whose `alerts` list
is missing or empty yields the `ok`/"No alerts in the payload" body
with no notification sent, and whenever the send loop raises, the
handler returns a `status: error` body carrying the message of the
exception instead of raising. -/
theorem alert_handler_total_on_parsed
    (payload : AlertPayload) (send : String → Except String Unit) :
    (alert_handler (.ok payload) send).1.isRaised = false ∧
      (payload.alerts.getD [] = [] →
        alert_handler (.ok payload) send
          = (.ok ("No alerts in the payload"), [])) ∧
      (∀ e, (sendLoop send (payload.alerts.getD [])).2 = .error e →
        (alert_handler (.ok payload) send).1 = .err e) := by
  obtain ⟨alerts?⟩ := payload
  refine ⟨?_, ?_, ?_⟩
  · show (alert_handler _ _).1.isRaised = false
    rw [alert_handler]
    by_cases h : (alerts?.getD []).isEmpty
    · simp only [h, if_true]; rfl
    · simp only [h, if_false]
      cases hs : (sendLoop send (alerts?.getD [])).2 <;> simp [hs, HandlerResult.isRaised]
  · intro h
    simp [alert_handler, h]
  · intro e hs
    have hne : (alerts?.getD []).isEmpty = false := by
      cases halt : alerts?.getD [] with
      | nil =>
        rw [halt] at hs
        simp [sendLoop] at hs
      | cons a rest => simp [halt]
    simp [alert_handler, hne, hs]

/-- Witness for C10: a payload with no `alerts` key yields the
"No alerts" body, and a one-alert payload whose send raises yields the
`status: error` body with the message of the exception. -/
theorem alert_handler_total_on_parsed_witness :
    alert_handler (.ok ⟨none⟩) (fun _ => .ok ())
        = (.ok ("No alerts in the payload"), []) ∧
      (alert_handler (.ok ⟨some [⟨none, none, none, none⟩]⟩)
          (fun _ => .error ("Chat not found"))).1 = .err ("Chat not found") :=
  ⟨(alert_handler_total_on_parsed ⟨none⟩ (fun _ => .ok ())).2.1 rfl,
    (alert_handler_total_on_parsed ⟨some [⟨none, none, none, none⟩]⟩
        (fun _ => .error ("Chat not found"))).2.2 ("Chat not found") rfl⟩

end ForumTooling
